import Mathlib

/-!
Verification of the state-keeper I/O common module of zksync-era
(`core/bin/zksync_core/src/state_keeper/io/common.rs`).

The module contains three operations:
* `l1_batch_params` — a pure builder of VM initialization parameters;
* `poll_iters` — ceiling division of two durations in milliseconds;
* `load_pending_batch` — recovery of a pending (unsealed) batch from storage.

Machine integers are embedded as `Nat` with explicit reduction modulo `2 ^ 64`
where the Rust code performs a `u128 → u64` cast or wrapping `u64` arithmetic.
Fallible paths (a failed `unwrap`, a fired `assert!`) are embedded as `none`.
-/

namespace ZkSyncCore

/-- Rust `std::time::Duration`: a count of seconds plus a sub-second
nanosecond part. The Rust invariant `nanos < 10^9` is not needed by any
statement below, so the fields are left unconstrained. -/
structure Durat where
  secs : Nat
  nanos : Nat
  deriving Repr, DecidableEq

/-- Rust `Duration::as_millis`: whole milliseconds contained in the duration
(`secs * 1000 + nanos / 1_000_000`, computed in `u128`, here exact `Nat`). -/
def Durat.as_millis (d : Durat) : Nat :=
  d.secs * 1000 + d.nanos / 1000000

/-- Total length of the duration in nanoseconds (used to state "the duration
is positive" and "`n` intervals cover the wait" exactly). -/
def Durat.to_nanos (d : Durat) : Nat :=
  d.secs * 1000000000 + d.nanos

/-- Function `poll_iters` from the source: both durations are converted to whole
milliseconds and cast `u128 → u64` (reduction modulo `2 ^ 64`); the assertion
`delay_interval_millis > 0` firing is embedded as `none`; the ceiling is
computed as `(max_wait_millis + delay_interval_millis - 1) / delay_interval_millis`
in wrapping `u64` arithmetic, then clamped to a minimum of `1`. -/
def poll_iters (delay_interval max_wait : Durat) : Option Nat :=
  let max_wait_millis := max_wait.as_millis % 2 ^ 64
  let delay_interval_millis := delay_interval.as_millis % 2 ^ 64
  if delay_interval_millis > 0 then
    some (Nat.max ((max_wait_millis + delay_interval_millis - 1) % 2 ^ 64
      / delay_interval_millis) 1)
  else
    none

/-- Rust `H256`: a 32-byte hash, kept as its byte sequence. -/
structure H256 where
  bytes : List Nat
  deriving Repr, DecidableEq

/-- Function `zksync_utils::h256_to_u256`: the 256-bit unsigned integer read from the
hash bytes in big-endian order. -/
def h256_to_u256 (h : H256) : Nat :=
  h.bytes.foldl (fun acc b => acc * 256 + b) 0

/-- A system contract with its bytecode and content hash
(`zksync_contracts::SystemContractCode`). -/
structure SystemContractCode where
  code : List Nat
  hash : H256
  deriving Repr, DecidableEq

/-- Type `zksync_contracts::BaseSystemContracts`: the bootloader and the default
account-abstraction code. -/
structure BaseSystemContracts where
  bootloader : SystemContractCode
  default_aa : SystemContractCode
  deriving Repr, DecidableEq

/-- Modelled from the spec: `ZKPORTER_IS_AVAILABLE` is the "static
process-wide configuration constant" for the storage-proof (zkPorter)
availability flag, declared in the external `zksync_types` crate (not under
the sources verified here). Its concrete value is irrelevant to every claim;
only the fact that it is a fixed constant is used. -/
def ZKPORTER_IS_AVAILABLE : Bool := false

/-- Type `vm::zk_evm::block_properties::BlockProperties`: the default
account-abstraction code hash paired with the zkPorter availability flag. -/
structure BlockProperties where
  default_aa_code_hash : Nat
  zkporter_is_available : Bool
  deriving Repr, DecidableEq

/-- Type `vm::vm_with_bootloader::BlockContext`: the per-batch execution context
fields. Addresses are kept as their 160-bit integer value. -/
structure BlockContext where
  block_number : Nat
  block_timestamp : Nat
  l1_gas_price : Nat
  fair_l2_gas_price : Nat
  operator_address : Nat
  deriving Repr, DecidableEq

/-- Modelled from the spec: the derived context carried by a new-batch mode
tag. The external VM crate additionally derives a base fee from the context;
the spec's `ExecutionContext` consists exactly of the fields of
`BlockContext`, so the conversion carries the context through unchanged. -/
structure DerivedBlockContext where
  context : BlockContext
  deriving Repr, DecidableEq

/-- The `From<BlockContext> for DerivedBlockContext` conversion invoked as
`context.into()` in the source, modelled from the spec (see
`DerivedBlockContext`). -/
def blockContextInto (context : BlockContext) : DerivedBlockContext :=
  { context }

/-- Modelled from the spec: `vm::vm_with_bootloader::BlockContextMode`. The
"new batch" tag carries the derived context and the previous batch's hash;
the spec notes other initialization modes exist in the wider system but are
not constructed by this core, represented here by the override constructor. -/
inductive BlockContextMode where
  | NewBlock : DerivedBlockContext → Nat → BlockContextMode
  | OverrideCurrentBlock : DerivedBlockContext → BlockContextMode
  deriving Repr, DecidableEq

/-- Type `L1BatchParams` from `state_keeper::io`: everything needed to initialize
the VM for the next L1 batch. -/
structure L1BatchParams where
  context_mode : BlockContextMode
  properties : BlockProperties
  base_system_contracts : BaseSystemContracts
  deriving Repr, DecidableEq

/-- Function `l1_batch_params` from the source: assembles the VM initialization
parameters for the next L1 batch from primitive inputs, reading the zkPorter
flag from the process-wide constant. -/
def l1_batch_params (current_l1_batch_number : Nat) (operator_address : Nat)
    (l1_batch_timestamp : Nat) (previous_block_hash : Nat)
    (l1_gas_price : Nat) (fair_l2_gas_price : Nat)
    (base_system_contracts : BaseSystemContracts) : L1BatchParams :=
  let block_properties : BlockProperties :=
    { default_aa_code_hash := h256_to_u256 base_system_contracts.default_aa.hash
      zkporter_is_available := ZKPORTER_IS_AVAILABLE }
  let context : BlockContext :=
    { block_number := current_l1_batch_number
      block_timestamp := l1_batch_timestamp
      l1_gas_price
      fair_l2_gas_price
      operator_address }
  { context_mode := BlockContextMode.NewBlock (blockContextInto context) previous_block_hash
    properties := block_properties
    base_system_contracts }

/-- The pair of content hashes recorded in a miniblock header
(`BaseSystemContractsHashes`). -/
structure BaseSystemContractsHashes where
  bootloader : H256
  default_aa : H256
  deriving Repr, DecidableEq

/-- The fields of a stored miniblock header used by `load_pending_batch`. -/
structure MiniblockHeader where
  timestamp : Nat
  l1_gas_price : Nat
  l2_fair_gas_price : Nat
  base_system_contracts_hashes : BaseSystemContractsHashes
  deriving Repr, DecidableEq

/-- A transaction, opaque to this module: only its identity and order matter. -/
structure Transaction where
  id : Nat
  deriving Repr, DecidableEq

/-- The abstract storage gateway consumed by `load_pending_batch`: the
capability set of `StorageProcessor` plus the previous-batch-hash resolution
of `extractors::wait_for_prev_l1_batch_params` (which returns the hash and a
timestamp). Each capability is a pure query on the storage state. -/
structure StorageGateway where
  get_miniblock_range_of_l1_batch : Nat → Option (Nat × Nat)
  get_miniblock_header : Nat → Option MiniblockHeader
  wait_for_prev_l1_batch_params : Nat → Nat × Nat
  get_base_system_contracts : H256 → H256 → BaseSystemContracts
  get_transactions_to_reexecute : List Transaction

/-- Type `PendingBatchData` from `state_keeper::io`: the reconstructed batch
parameters plus the ordered transactions to re-execute. -/
structure PendingBatchData where
  params : L1BatchParams
  txs : List Transaction

/-- Function `load_pending_batch` from the source. The outer `Option` embeds the
fatal path: `none` is the panic of the `unwrap` on the miniblock-range query;
`some none` is the normal "nothing pending" result produced by the `?` on the
header query; `some (some data)` is a recovered pending batch. Batch
subtraction `current_l1_batch_number - 1` is the source's `L1BatchNumber`
subtraction, taken at `current_l1_batch_number ≥ 1` as the spec requires. -/
def load_pending_batch (storage : StorageGateway)
    (current_l1_batch_number : Nat) (fee_account : Nat) :
    Option (Option PendingBatchData) :=
  match storage.get_miniblock_range_of_l1_batch (current_l1_batch_number - 1) with
  | none => none
  | some range =>
    let pending_miniblock_number := range.2 + 1
    match storage.get_miniblock_header pending_miniblock_number with
    | none => some none
    | some pending_miniblock_header =>
      let previous_l1_batch_hash :=
        (storage.wait_for_prev_l1_batch_params current_l1_batch_number).1
      let base_system_contracts :=
        storage.get_base_system_contracts
          pending_miniblock_header.base_system_contracts_hashes.bootloader
          pending_miniblock_header.base_system_contracts_hashes.default_aa
      let params :=
        l1_batch_params current_l1_batch_number fee_account
          pending_miniblock_header.timestamp previous_l1_batch_hash
          pending_miniblock_header.l1_gas_price
          pending_miniblock_header.l2_fair_gas_price
          base_system_contracts
      let txs := storage.get_transactions_to_reexecute
      some (some { params, txs })

/-- A concrete miniblock header used to exercise the recovery path. -/
def testHeader : MiniblockHeader :=
  { timestamp := 1000
    l1_gas_price := 5
    l2_fair_gas_price := 7
    base_system_contracts_hashes := { bootloader := ⟨[1]⟩, default_aa := ⟨[2]⟩ } }

/-- A concrete storage gateway in which batch 4 ends at miniblock 12 and
miniblock 13 has a stored header: a pending batch exists for batch 5. -/
def testGateway : StorageGateway :=
  { get_miniblock_range_of_l1_batch := fun b => if b = 4 then some (10, 12) else none
    get_miniblock_header := fun mb => if mb = 13 then some testHeader else none
    wait_for_prev_l1_batch_params := fun _ => (777, 0)
    get_base_system_contracts := fun bl aa =>
      { bootloader := { code := [], hash := bl }, default_aa := { code := [], hash := aa } }
    get_transactions_to_reexecute := [⟨1⟩, ⟨2⟩, ⟨3⟩] }

/-- A concrete storage gateway in which batch 4 ends at miniblock 12 but no
miniblock header is stored at all: nothing is pending for batch 5. -/
def testGatewayNoHeader : StorageGateway :=
  { testGateway with get_miniblock_header := fun _ => none }

/-- A concrete storage gateway with no recorded miniblock ranges at all,
matching the `currentBatchNumber = 1` boundary with no predecessor history. -/
def testGatewayNoRange : StorageGateway :=
  { testGateway with get_miniblock_range_of_l1_batch := fun _ => none }

/-- Concrete base system contracts used to exercise the context builder. -/
def testContracts : BaseSystemContracts :=
  { bootloader := { code := [7], hash := ⟨[3, 1]⟩ }
    default_aa := { code := [9], hash := ⟨[4, 2]⟩ } }

/-- Ceiling division characterized as a least upper bound: for positive `d`,
`(m + d - 1) / d ≤ n` exactly when `n` intervals of length `d` cover `m`. -/
theorem ceil_le_iff (d m n : Nat) (hd : 0 < d) :
    (m + d - 1) / d ≤ n ↔ m ≤ d * n := by
  rw [Nat.div_le_iff_le_mul_add_pred hd]
  generalize d * n = k
  omega

/-- Lemma: `poll_iters` only depends on the whole-millisecond values of its
arguments. -/
theorem poll_iters_congr_millis (d d2 m m2 : Durat)
    (hd : d.as_millis = d2.as_millis) (hm : m.as_millis = m2.as_millis) :
    poll_iters d m = poll_iters d2 m2 := by
  unfold poll_iters
  rw [hd, hm]

/-- C3 counterexample: a strictly positive delay interval of 500 microseconds
(sub-millisecond) makes `poll_iters` fail the assertion (`none`) instead of
returning the claimed ceiling value `1`. -/
theorem poll_iters_ceiling_cex :
    0 < (Durat.mk 0 500000).to_nanos ∧
    poll_iters (Durat.mk 0 500000) (Durat.mk 0 0) = none ∧
    poll_iters (Durat.mk 0 500000) (Durat.mk 0 0) ≠ some 1 := by
  decide

/-- C3 (amended): for a delay interval and maximum wait that are whole
numbers of milliseconds, with the delay positive and the total below `2 ^ 64`
milliseconds, `poll_iters` returns exactly the smallest integer `n ≥ 1` such
that `n * delayInterval ≥ maxWait`. -/
theorem poll_iters_ceiling (d m : Durat)
    (hd : 0 < d.as_millis)
    (hdw : d.nanos % 1000000 = 0) (hmw : m.nanos % 1000000 = 0)
    (hb : m.as_millis + d.as_millis < 2 ^ 64) :
    ∃ n, poll_iters d m = some n ∧ 1 ≤ n ∧ m.to_nanos ≤ n * d.to_nanos ∧
      (∀ k, 1 ≤ k → m.to_nanos ≤ k * d.to_nanos → n ≤ k) := by
  have hD : d.as_millis < 2 ^ 64 := by omega
  have hM : m.as_millis < 2 ^ 64 := by omega
  have hdn : d.to_nanos = d.as_millis * 1000000 := by
    have hq : d.nanos / 1000000 * 1000000 = d.nanos :=
      Nat.div_mul_cancel (Nat.dvd_of_mod_eq_zero hdw)
    unfold Durat.to_nanos Durat.as_millis
    omega
  have hmn : m.to_nanos = m.as_millis * 1000000 := by
    have hq : m.nanos / 1000000 * 1000000 = m.nanos :=
      Nat.div_mul_cancel (Nat.dvd_of_mod_eq_zero hmw)
    unfold Durat.to_nanos Durat.as_millis
    omega
  refine ⟨Nat.max ((m.as_millis + d.as_millis - 1) / d.as_millis) 1, ?_, ?_, ?_, ?_⟩
  · unfold poll_iters
    simp only [Nat.mod_eq_of_lt hD, Nat.mod_eq_of_lt hM,
      Nat.mod_eq_of_lt (show m.as_millis + d.as_millis - 1 < 2 ^ 64 by omega)]
    rw [if_pos hd]
  · exact Nat.le_max_right _ 1
  · have key : m.as_millis ≤
        d.as_millis * Nat.max ((m.as_millis + d.as_millis - 1) / d.as_millis) 1 :=
      (ceil_le_iff d.as_millis m.as_millis _ hd).mp
        (Nat.le_max_left _ 1)
    rw [hdn, hmn, ← Nat.mul_assoc]
    calc m.as_millis * 1000000
        ≤ d.as_millis * Nat.max ((m.as_millis + d.as_millis - 1) / d.as_millis) 1
            * 1000000 := Nat.mul_le_mul_right 1000000 key
      _ = Nat.max ((m.as_millis + d.as_millis - 1) / d.as_millis) 1
            * d.as_millis * 1000000 := by rw [Nat.mul_comm d.as_millis]
  · intro k hk hcov
    rw [hdn, hmn, ← Nat.mul_assoc] at hcov
    have hcov2 : m.as_millis ≤ k * d.as_millis :=
      Nat.le_of_mul_le_mul_right hcov (by norm_num)
    have : (m.as_millis + d.as_millis - 1) / d.as_millis ≤ k :=
      (ceil_le_iff d.as_millis m.as_millis k hd).mpr
        (by rw [Nat.mul_comm]; exact hcov2)
    exact Nat.max_le.mpr ⟨this, hk⟩

/-- Witness for `poll_iters_ceiling`: at a 100 ms delay and a 201 ms maximum
wait the hypotheses hold and the least covering iteration count is returned. -/
theorem poll_iters_ceiling_witness :
    0 < (Durat.mk 0 100000000).as_millis ∧
    (Durat.mk 0 100000000).nanos % 1000000 = 0 ∧
    (Durat.mk 0 201000000).nanos % 1000000 = 0 ∧
    (Durat.mk 0 201000000).as_millis + (Durat.mk 0 100000000).as_millis < 2 ^ 64 ∧
    (∃ n, poll_iters (Durat.mk 0 100000000) (Durat.mk 0 201000000) = some n ∧
      1 ≤ n ∧ (Durat.mk 0 201000000).to_nanos ≤ n * (Durat.mk 0 100000000).to_nanos ∧
      (∀ k, 1 ≤ k →
        (Durat.mk 0 201000000).to_nanos ≤ k * (Durat.mk 0 100000000).to_nanos →
        n ≤ k)) :=
  ⟨by decide, by decide, by decide, by decide,
    poll_iters_ceiling (Durat.mk 0 100000000) (Durat.mk 0 201000000)
      (by decide) (by decide) (by decide) (by decide)⟩

/-- C4: with a zero delay interval, `poll_iters` fails the assertion for every
maximum wait; no numeric result is ever produced. -/
theorem poll_iters_zero_interval (m : Durat) :
    poll_iters (Durat.mk 0 0) m = none ∧ ∀ n, poll_iters (Durat.mk 0 0) m ≠ some n := by
  refine ⟨rfl, ?_⟩
  intro n h
  exact Option.noConfusion h

/-- C9: the assertion is evaluated after conversion to whole milliseconds: a
strictly positive delay shorter than one millisecond converts to `0` and the
assertion fires (`none`); likewise the sub-millisecond part of the maximum
wait is truncated away before the ceiling is computed. -/
theorem poll_iters_subms (d m d2 m2 : Durat) (e : Nat)
    (h1 : d.secs = 0) (h2 : 0 < d.nanos) (h3 : d.nanos < 1000000)
    (h4 : m2.nanos % 1000000 = 0) (h5 : e < 1000000) :
    0 < d.to_nanos ∧ poll_iters d m = none ∧
    poll_iters d2 (Durat.mk m2.secs (m2.nanos + e)) = poll_iters d2 m2 := by
  refine ⟨?_, ?_, ?_⟩
  · unfold Durat.to_nanos
    omega
  · have hz : d.as_millis = 0 := by
      unfold Durat.as_millis
      rw [h1, Nat.div_eq_of_lt h3]
    unfold poll_iters
    rw [hz]
    rfl
  · apply poll_iters_congr_millis _ _ _ _ rfl
    obtain ⟨q, hq⟩ := Nat.dvd_of_mod_eq_zero h4
    unfold Durat.as_millis
    rw [hq, Nat.mul_add_div (by norm_num), Nat.div_eq_of_lt h5,
      Nat.mul_div_cancel_left q (by norm_num)]
    rfl

/-- Witness for `poll_iters_subms`: a 500 µs delay fires the assertion, and
adding 999 ns to a 201 ms wait leaves the result unchanged. -/
theorem poll_iters_subms_witness :
    (Durat.mk 0 500000).secs = 0 ∧ 0 < (Durat.mk 0 500000).nanos ∧
    (Durat.mk 0 500000).nanos < 1000000 ∧
    (Durat.mk 0 201000000).nanos % 1000000 = 0 ∧ 999 < 1000000 ∧
    (0 < (Durat.mk 0 500000).to_nanos ∧
      poll_iters (Durat.mk 0 500000) (Durat.mk 0 0) = none ∧
      poll_iters (Durat.mk 0 100000000) (Durat.mk 0 (201000000 + 999)) =
        poll_iters (Durat.mk 0 100000000) (Durat.mk 0 201000000)) :=
  ⟨by decide, by decide, by decide, by decide, by decide,
    poll_iters_subms (Durat.mk 0 500000) (Durat.mk 0 0)
      (Durat.mk 0 100000000) (Durat.mk 0 201000000) 999
      (by decide) (by decide) (by decide) (by decide) (by decide)⟩

/-- Two values clamped to a minimum of `1` stay distinct when the larger one
is at least `2`. -/
theorem max_one_ne (w t : Nat) (h : w + 1 ≤ t) (h2 : 2 ≤ t) :
    Nat.max w 1 ≠ Nat.max t 1 := by
  simp only [Nat.max_def]
  split_ifs <;> omega

/-- C10 counterexample: at a delay of `2 ^ 63 + 1` ms and a wait of `2 ^ 63`
ms the wrap condition `m + d - 1 ≥ 2 ^ 64` of the claim holds, yet the
computed value `1` coincides with the true clamped ceiling (one interval
already covers the wait), so the computed value does not differ from the
true ceiling as the claim asserts. -/
theorem poll_iters_wrap_cex :
    2 ^ 64 ≤ (Durat.mk 9223372036854775 808000000).as_millis % 2 ^ 64
      + (Durat.mk 9223372036854775 809000000).as_millis % 2 ^ 64 - 1 ∧
    poll_iters (Durat.mk 9223372036854775 809000000)
      (Durat.mk 9223372036854775 808000000) = some 1 ∧
    (Durat.mk 9223372036854775 808000000).to_nanos ≤
      1 * (Durat.mk 9223372036854775 809000000).to_nanos := by
  refine ⟨by decide, by decide, by decide⟩

/-- C10 (amended): when the millisecond counts (after the `u128 → u64` cast)
satisfy `m + d - 1 ≥ 2 ^ 64`, the computed value is
`((m + d - 1) mod 2 ^ 64) / d` clamped to a minimum of `1`, and it differs
from the true clamped ceiling `(m + d - 1) / d` whenever that ceiling is at
least `2`. -/
theorem poll_iters_wrap (d m : Durat)
    (hd : 0 < d.as_millis % 2 ^ 64)
    (hw : 2 ^ 64 ≤ m.as_millis % 2 ^ 64 + d.as_millis % 2 ^ 64 - 1) :
    poll_iters d m = some (Nat.max
      ((m.as_millis % 2 ^ 64 + d.as_millis % 2 ^ 64 - 1) % 2 ^ 64
        / (d.as_millis % 2 ^ 64)) 1) ∧
    (2 ≤ (m.as_millis % 2 ^ 64 + d.as_millis % 2 ^ 64 - 1)
        / (d.as_millis % 2 ^ 64) →
      Nat.max ((m.as_millis % 2 ^ 64 + d.as_millis % 2 ^ 64 - 1) % 2 ^ 64
        / (d.as_millis % 2 ^ 64)) 1 ≠
      Nat.max ((m.as_millis % 2 ^ 64 + d.as_millis % 2 ^ 64 - 1)
        / (d.as_millis % 2 ^ 64)) 1) := by
  have hD : d.as_millis % 2 ^ 64 < 2 ^ 64 := Nat.mod_lt _ (by norm_num)
  have hM : m.as_millis % 2 ^ 64 < 2 ^ 64 := Nat.mod_lt _ (by norm_num)
  constructor
  · unfold poll_iters
    rw [if_pos hd]
  · intro ht
    have hsub : (m.as_millis % 2 ^ 64 + d.as_millis % 2 ^ 64 - 1) % 2 ^ 64
        = m.as_millis % 2 ^ 64 + d.as_millis % 2 ^ 64 - 1 - 2 ^ 64 := by
      rw [Nat.mod_eq_sub_mod hw, Nat.mod_eq_of_lt (by omega)]
    rw [hsub]
    have hlt : (m.as_millis % 2 ^ 64 + d.as_millis % 2 ^ 64 - 1 - 2 ^ 64)
          / (d.as_millis % 2 ^ 64) + 1
        ≤ (m.as_millis % 2 ^ 64 + d.as_millis % 2 ^ 64 - 1)
          / (d.as_millis % 2 ^ 64) := by
      rw [← Nat.add_div_right _ hd]
      exact Nat.div_le_div_right (by omega)
    exact max_one_ne _ _ hlt ht

/-- Witness for `poll_iters_wrap`: a 2 ms delay with a `2 ^ 64 - 1` ms wait
wraps to a computed value of `1` while the true clamped ceiling is `2 ^ 63`. -/
theorem poll_iters_wrap_witness :
    0 < (Durat.mk 0 2000000).as_millis % 2 ^ 64 ∧
    2 ^ 64 ≤ (Durat.mk 18446744073709551 615000000).as_millis % 2 ^ 64
      + (Durat.mk 0 2000000).as_millis % 2 ^ 64 - 1 ∧
    (poll_iters (Durat.mk 0 2000000) (Durat.mk 18446744073709551 615000000)
      = some (Nat.max
        (((Durat.mk 18446744073709551 615000000).as_millis % 2 ^ 64
          + (Durat.mk 0 2000000).as_millis % 2 ^ 64 - 1) % 2 ^ 64
          / ((Durat.mk 0 2000000).as_millis % 2 ^ 64)) 1) ∧
    (2 ≤ ((Durat.mk 18446744073709551 615000000).as_millis % 2 ^ 64
        + (Durat.mk 0 2000000).as_millis % 2 ^ 64 - 1)
        / ((Durat.mk 0 2000000).as_millis % 2 ^ 64) →
      Nat.max (((Durat.mk 18446744073709551 615000000).as_millis % 2 ^ 64
        + (Durat.mk 0 2000000).as_millis % 2 ^ 64 - 1) % 2 ^ 64
        / ((Durat.mk 0 2000000).as_millis % 2 ^ 64)) 1 ≠
      Nat.max (((Durat.mk 18446744073709551 615000000).as_millis % 2 ^ 64
        + (Durat.mk 0 2000000).as_millis % 2 ^ 64 - 1)
        / ((Durat.mk 0 2000000).as_millis % 2 ^ 64)) 1)) :=
  ⟨by decide, by decide,
    poll_iters_wrap (Durat.mk 0 2000000) (Durat.mk 18446744073709551 615000000)
      (by decide) (by decide)⟩

/-- C5: `l1_batch_params` reads the zkPorter availability flag from the
static process-wide constant (so it is identical across calls with any
arguments), pairs it with the content hash of the supplied default
account-abstraction code, and tags the produced context as new-batch mode
carrying the supplied previous batch hash. -/
theorem l1_batch_params_flag_and_tag (n addr ts prev g1 g2 : Nat)
    (c : BaseSystemContracts) (n2 addr2 ts2 prev2 g12 g22 : Nat)
    (c2 : BaseSystemContracts) :
    (l1_batch_params n addr ts prev g1 g2 c).properties.zkporter_is_available
      = ZKPORTER_IS_AVAILABLE ∧
    (l1_batch_params n addr ts prev g1 g2 c).properties.zkporter_is_available
      = (l1_batch_params n2 addr2 ts2 prev2 g12 g22 c2).properties.zkporter_is_available ∧
    (l1_batch_params n addr ts prev g1 g2 c).properties.default_aa_code_hash
      = h256_to_u256 c.default_aa.hash ∧
    ∃ ctx, (l1_batch_params n addr ts prev g1 g2 c).context_mode
      = BlockContextMode.NewBlock ctx prev :=
  ⟨rfl, rfl, rfl, _, rfl⟩

/-- C6: `l1_batch_params` is deterministic — two calls with equal inputs
return values equal in every field. -/
theorem l1_batch_params_deterministic (n addr ts prev g1 g2 : Nat)
    (c : BaseSystemContracts) (n2 addr2 ts2 prev2 g12 g22 : Nat)
    (c2 : BaseSystemContracts)
    (h1 : n = n2) (h2 : addr = addr2) (h3 : ts = ts2) (h4 : prev = prev2)
    (h5 : g1 = g12) (h6 : g2 = g22) (h7 : c = c2) :
    l1_batch_params n addr ts prev g1 g2 c
      = l1_batch_params n2 addr2 ts2 prev2 g12 g22 c2 ∧
    (l1_batch_params n addr ts prev g1 g2 c).context_mode
      = (l1_batch_params n2 addr2 ts2 prev2 g12 g22 c2).context_mode ∧
    (l1_batch_params n addr ts prev g1 g2 c).properties
      = (l1_batch_params n2 addr2 ts2 prev2 g12 g22 c2).properties ∧
    (l1_batch_params n addr ts prev g1 g2 c).base_system_contracts
      = (l1_batch_params n2 addr2 ts2 prev2 g12 g22 c2).base_system_contracts := by
  subst h1 h2 h3 h4 h5 h6 h7
  exact ⟨rfl, rfl, rfl, rfl⟩

/-- Witness for `l1_batch_params_deterministic` at concrete inputs. -/
theorem l1_batch_params_deterministic_witness :
    l1_batch_params 5 9 1000 777 5 7 testContracts
      = l1_batch_params 5 9 1000 777 5 7 testContracts ∧
    (l1_batch_params 5 9 1000 777 5 7 testContracts).context_mode
      = (l1_batch_params 5 9 1000 777 5 7 testContracts).context_mode ∧
    (l1_batch_params 5 9 1000 777 5 7 testContracts).properties
      = (l1_batch_params 5 9 1000 777 5 7 testContracts).properties ∧
    (l1_batch_params 5 9 1000 777 5 7 testContracts).base_system_contracts
      = (l1_batch_params 5 9 1000 777 5 7 testContracts).base_system_contracts :=
  l1_batch_params_deterministic 5 9 1000 777 5 7 testContracts
    5 9 1000 777 5 7 testContracts rfl rfl rfl rfl rfl rfl rfl

/-- C7: `l1_batch_params` is total — every input tuple yields a result, with
no failure branch, and the result carries the inputs through unchanged: the
context holds exactly the supplied batch number, operator, timestamp and gas
prices, the mode holds the supplied previous hash, and the supplied system
contracts are returned unmodified. -/
theorem l1_batch_params_total (n addr ts prev g1 g2 : Nat)
    (c : BaseSystemContracts) :
    ∃ p : L1BatchParams, l1_batch_params n addr ts prev g1 g2 c = p ∧
      p.base_system_contracts = c ∧
      ∃ ctx, p.context_mode = BlockContextMode.NewBlock ctx prev ∧
        ctx.context.block_number = n ∧ ctx.context.operator_address = addr ∧
        ctx.context.block_timestamp = ts ∧ ctx.context.l1_gas_price = g1 ∧
        ctx.context.fair_l2_gas_price = g2 :=
  ⟨_, rfl, rfl, _, rfl, rfl, rfl, rfl, rfl, rfl⟩

/-- C1: when the predecessor's miniblock range is recorded and a header is
stored at one past its last miniblock, `load_pending_batch` returns a
present result whose transaction list is exactly the gateway's
re-execution list and whose context carries the header's timestamp and gas
prices and the resolved previous batch hash. -/
theorem load_pending_batch_pending (storage : StorageGateway) (n fee : Nat)
    (first last : Nat) (header : MiniblockHeader)
    (hrange : storage.get_miniblock_range_of_l1_batch (n - 1) = some (first, last))
    (hheader : storage.get_miniblock_header (last + 1) = some header) :
    ∃ data, load_pending_batch storage n fee = some (some data) ∧
      data.txs = storage.get_transactions_to_reexecute ∧
      ∃ ctx prev_hash,
        data.params.context_mode = BlockContextMode.NewBlock ctx prev_hash ∧
        ctx.context.block_timestamp = header.timestamp ∧
        ctx.context.l1_gas_price = header.l1_gas_price ∧
        ctx.context.fair_l2_gas_price = header.l2_fair_gas_price ∧
        prev_hash = (storage.wait_for_prev_l1_batch_params n).1 := by
  unfold load_pending_batch
  rw [hrange]
  simp only
  rw [hheader]
  exact ⟨_, rfl, rfl, _, _, rfl, rfl, rfl, rfl, rfl⟩

/-- Witness for `load_pending_batch_pending`: on `testGateway` at batch 5,
the range of batch 4 ends at miniblock 12 and miniblock 13 has a header. -/
theorem load_pending_batch_pending_witness :
    testGateway.get_miniblock_range_of_l1_batch (5 - 1) = some (10, 12) ∧
    testGateway.get_miniblock_header (12 + 1) = some testHeader ∧
    (∃ data, load_pending_batch testGateway 5 9 = some (some data) ∧
      data.txs = testGateway.get_transactions_to_reexecute ∧
      ∃ ctx prev_hash,
        data.params.context_mode = BlockContextMode.NewBlock ctx prev_hash ∧
        ctx.context.block_timestamp = testHeader.timestamp ∧
        ctx.context.l1_gas_price = testHeader.l1_gas_price ∧
        ctx.context.fair_l2_gas_price = testHeader.l2_fair_gas_price ∧
        prev_hash = (testGateway.wait_for_prev_l1_batch_params 5).1) :=
  ⟨rfl, rfl, load_pending_batch_pending testGateway 5 9 10 12 testHeader rfl rfl⟩

/-- C2: for `currentBatchNumber ≥ 1` with the predecessor's range recorded,
`load_pending_batch` queries the header of exactly `last + 1` and returns
the empty result (`some none`, not the fatal `none`) when that header is
absent. -/
theorem load_pending_batch_empty (storage : StorageGateway) (n fee : Nat)
    (first last : Nat) (hn : 1 ≤ n)
    (hrange : storage.get_miniblock_range_of_l1_batch (n - 1) = some (first, last))
    (hheader : storage.get_miniblock_header (last + 1) = none) :
    load_pending_batch storage n fee = some none := by
  unfold load_pending_batch
  rw [hrange]
  simp only
  rw [hheader]

/-- Witness for `load_pending_batch_empty`: on `testGatewayNoHeader` at
batch 5 the candidate miniblock 13 has no header and the result is empty. -/
theorem load_pending_batch_empty_witness :
    1 ≤ 5 ∧
    testGatewayNoHeader.get_miniblock_range_of_l1_batch (5 - 1) = some (10, 12) ∧
    testGatewayNoHeader.get_miniblock_header (12 + 1) = none ∧
    load_pending_batch testGatewayNoHeader 5 9 = some none :=
  ⟨by decide, rfl, rfl,
    load_pending_batch_empty testGatewayNoHeader 5 9 10 12 (by decide) rfl rfl⟩

/-- C8: when the storage gateway records no miniblock range for
`currentBatchNumber - 1`, `load_pending_batch` fails fatally (the `unwrap`
panics, embedded as `none`) instead of reporting "nothing pending". -/
theorem load_pending_batch_panics (storage : StorageGateway) (n fee : Nat)
    (hrange : storage.get_miniblock_range_of_l1_batch (n - 1) = none) :
    load_pending_batch storage n fee = none := by
  unfold load_pending_batch
  rw [hrange]

/-- Witness for `load_pending_batch_panics`: at the `currentBatchNumber = 1`
boundary with no predecessor history the operation fails fatally. -/
theorem load_pending_batch_panics_witness :
    testGatewayNoRange.get_miniblock_range_of_l1_batch (1 - 1) = none ∧
    load_pending_batch testGatewayNoRange 1 9 = none :=
  ⟨rfl, load_pending_batch_panics testGatewayNoRange 1 9 rfl⟩

end ZkSyncCore
